import Mathlib

/-!
Verification development for the virtual-assistant reconciliation backend.

The definitions below are a shallow embedding of
`src/backend/utils/agent_initializer.py` and
`src/backend/routes/virtual_assistants.py`:

* YAML agent descriptors are records of optional scalar fields plus tool and
  knowledge-base entry lists (a missing mapping key is `Option.none`);
* the relational store is a record of entity lists plus a fresh-id counter;
* the external collaborators that are not part of `src/` (the llamastack
  agent enumerator, the `create_knowledge_base` route) are abstracted as
  parameters, modelled from the spec where noted;
* Python exceptions are an explicit `PyExc` type; a `try/except` block is an
  explicit `match` on an `Except` value.

Floating-point configuration constants (temperature and friends) are carried
as rational literals; no arithmetic is ever performed on them.
-/

/-- The value of the `files` key of a YAML knowledge-base entry.
`missing` means the key is absent (Python `dict.get("files", [])` then yields
`[]`); `nonList b` is a present non-list value whose Python truthiness is `b`. -/
inductive FilesField where
  | missing : FilesField
  | list (fs : List String) : FilesField
  | nonList (truthy : Bool) : FilesField
deriving DecidableEq

/-- One entry of a descriptor's `mcp_tools` list: a mapping with an optional
`name` key. -/
structure YamlTool where
  name : Option String
deriving DecidableEq

/-- One entry of a descriptor's `knowledge_bases` list: `name`, optional
`description`, and the `files` field. -/
structure YamlKB where
  name : Option String
  description : Option String
  files : FilesField
deriving DecidableEq

/-- A YAML agent descriptor as consumed by the reconciler: scalar keys are
optional, the two entry lists default to empty when the key is absent. -/
structure YamlAgent where
  name : Option String
  model : Option String
  description : Option String
  mcp_tools : List YamlTool
  knowledge_bases : List YamlKB
deriving DecidableEq

/-- A member of the converted `tools` list: a mapping with a single
`toolgroup_id` key. -/
structure ToolAssoc where
  toolgroup_id : String
deriving DecidableEq

/-- The reserved retrieval-augmentation tool token. -/
def ragId : String := "builtin::rag"

/-- Shape of `schemas.VirtualAssistantCreate` as populated by
`convert_yaml_agent_to_schema` and consumed by `create_virtual_assistant`.
`mcp_server_ids` is not set by the converter; `schemas.py` is not part of
`src/`, and the spec's descriptor shape has no such field, so its schema
default is modelled as the empty list (matching the route reading it as an
iterable). -/
structure VirtualAssistantCreate where
  name : String
  model_name : String
  prompt : String
  temperature : Rat
  top_p : Rat
  max_tokens : Nat
  repetition_penalty : Rat
  max_infer_iters : Nat
  input_shields : List String
  output_shields : List String
  tools : List ToolAssoc
  knowledge_base_ids : List String
  mcp_server_ids : List String
  enable_session_persistence : Bool
deriving DecidableEq

/-- Python truthiness filter used on `tool.get("name")` / `kb.get("name")`:
an absent key or an empty string is falsy and is treated as no name. -/
def truthyName : Option String → Option String
  | none => none
  | some s => if s = "" then none else some s

/-- The MCP-tool loop of `convert_yaml_agent_to_schema`: each named tool
contributes `mcp::` plus its name, except that a source entry literally named
`builtin::rag` is dropped (`continue`). -/
def convertTools (mcp_tools : List YamlTool) : List ToolAssoc :=
  mcp_tools.filterMap (fun tool =>
    (truthyName tool.name).bind (fun tool_name =>
      if tool_name = ragId then none
      else some { toolgroup_id := "mcp::" ++ tool_name }))

/-- The knowledge-base loop of `convert_yaml_agent_to_schema`: each named
entry contributes its name to `knowledge_base_ids`. -/
def convertKbIds (knowledge_bases : List YamlKB) : List String :=
  knowledge_bases.filterMap (fun kb => truthyName kb.name)

/-- Shallow embedding of `convert_yaml_agent_to_schema`
(`src/backend/utils/agent_initializer.py`, lines 48-102). -/
def convert_yaml_agent_to_schema (yaml_agent : YamlAgent) : VirtualAssistantCreate :=
  let kb_ids := convertKbIds yaml_agent.knowledge_bases
  { name := yaml_agent.name.getD "Unnamed Agent"
    model_name := yaml_agent.model.getD "llama3.1-8b-instruct"
    prompt := yaml_agent.description.getD "You are a helpful assistant."
    temperature := ⟨1, 10, by decide, by decide⟩
    top_p := ⟨19, 20, by decide, by decide⟩
    max_tokens := 4096
    repetition_penalty := 1
    max_infer_iters := 10
    input_shields := []
    output_shields := []
    tools := convertTools yaml_agent.mcp_tools ++ (if kb_ids.isEmpty then [] else [{ toolgroup_id := ragId }])
    knowledge_base_ids := kb_ids
    mcp_server_ids := []
    enable_session_persistence := false }

/-- The `agent_name` variable of the reconciler loop
(`yaml_agent.get("name", "Unnamed Agent")`). -/
def nameOf (yaml_agent : YamlAgent) : String :=
  yaml_agent.name.getD "Unnamed Agent"

example :
    (convert_yaml_agent_to_schema
      { name := some "Support", model := none, description := none,
        mcp_tools := [], knowledge_bases := [{ name := some "kb1", description := none, files := .list ["a.pdf"] }] }).tools
    = [{ toolgroup_id := "builtin::rag" }] := by decide

example :
    (convert_yaml_agent_to_schema
      { name := none, model := none, description := none,
        mcp_tools := [{ name := some "builtin::rag" }, { name := some "web" }], knowledge_bases := [] }).tools
    = [{ toolgroup_id := "mcp::web" }] := by decide

/-- A persisted `models.KnowledgeBase` row.  `models.py` is not part of
`src/`; the fields are the ones written by `agent_initializer.py` and read by
`virtual_assistants.py`, keyed for deduplication by `vector_db_name`
(the spec's natural external key). -/
structure KnowledgeBase where
  name : String
  version : String
  embedding_model : String
  provider_id : String
  vector_db_name : String
  is_external : Bool
  source : String
  source_configuration : List String
  status : String
deriving DecidableEq

/-- Shape of `schemas.KnowledgeBaseCreate` as populated by
`create_knowledge_bases_from_config` (all fields are set explicitly, so
`model_dump(exclude_unset=True)` carries all of them). -/
structure KnowledgeBaseCreate where
  name : String
  version : String
  embedding_model : String
  provider_id : String
  vector_db_name : String
  is_external : Bool
  source : String
  source_configuration : List String
deriving DecidableEq

/-- Builds the persisted row from a creation request plus a status
(`models.KnowledgeBase(**kb_create.model_dump(exclude_unset=True))` followed
by an assignment to `status`). -/
def toEntity (c : KnowledgeBaseCreate) (status : String) : KnowledgeBase :=
  { name := c.name, version := c.version, embedding_model := c.embedding_model,
    provider_id := c.provider_id, vector_db_name := c.vector_db_name,
    is_external := c.is_external, source := c.source,
    source_configuration := c.source_configuration, status := status }

/-- The `kb_create` request built for a named entry with validated file list
(`agent_initializer.py`, lines 146-155). -/
def mkKbCreate (kb_config : YamlKB) (kb_name : String) (fs : List String) : KnowledgeBaseCreate :=
  { name := kb_config.description.getD kb_name
    version := "1.0"
    embedding_model := "all-MiniLM-L6-v2"
    provider_id := "pgvector"
    vector_db_name := kb_name
    is_external := false
    source := "URL"
    source_configuration := fs }

/-- One iteration of the knowledge-base creation loop
(`create_knowledge_bases_from_config`, lines 123-176).  `api` abstracts the
external `create_knowledge_base` route (`routes/knowledge_bases.py`, not part
of `src/`); modelled from the spec as `createKnowledgeBase(request) →
entity | raises`: `some s` means it persisted the requested entity with
status `s`, `none` means it raised, in which case the fallback inserts the
entity directly with status `PENDING`. -/
def kbStep (api : KnowledgeBaseCreate → Option String) (existing_kbs knowledge_base_ids : List String)
    (kbs : List KnowledgeBase) (kb_config : YamlKB) : List KnowledgeBase :=
  match truthyName kb_config.name with
  | none => kbs
  | some kb_name =>
    if kb_name ∈ knowledge_base_ids then
      match kb_config.files with
      | .missing => kbs
      | .nonList _ => kbs
      | .list fs =>
        if fs.isEmpty then kbs
        else if kb_name ∈ existing_kbs then kbs
        else
          match api (mkKbCreate kb_config kb_name fs) with
          | some s => kbs ++ [toEntity (mkKbCreate kb_config kb_name fs) s]
          | none => kbs ++ [toEntity (mkKbCreate kb_config kb_name fs) "PENDING"]
    else kbs

/-- Shallow embedding of `create_knowledge_bases_from_config`
(`agent_initializer.py`, lines 105-176).  The set of existing vector-db names
is snapshotted once before the loop, exactly as in the source; each created
row is committed immediately, so the accumulating list grows per iteration. -/
def create_knowledge_bases_from_config (api : KnowledgeBaseCreate → Option String)
    (yaml_agent : YamlAgent) (knowledge_base_ids : List String)
    (kbs0 : List KnowledgeBase) : List KnowledgeBase :=
  let existing_kbs := kbs0.map (fun kb => kb.vector_db_name)
  yaml_agent.knowledge_bases.foldl (kbStep api existing_kbs knowledge_base_ids) kbs0

/-- A persisted `models.VirtualAssistant` row (the scalar fields written by
`create_virtual_assistant`; audit fields such as timestamps and `created_by`
carry no logic and are omitted). -/
structure Assistant where
  id : Nat
  name : String
  prompt : String
  model_name : String
deriving DecidableEq

/-- A persisted `models.ModelServer` row, as projected by the components
route. -/
structure ModelServer where
  id : Nat
  name : String
  provider_name : String
  model_name : String
  endpoint_url : String
deriving DecidableEq

/-- A persisted `models.MCPServer` row, as projected by the components
route.  Its link key is modelled as a string id, matching the string-typed
`mcp_server_ids` consumed by the create route. -/
structure MCPServer where
  id : String
  name : String
  title : String
  description : String
  endpoint_url : String
  configuration : String
deriving DecidableEq

/-- The relational store: entity tables, the two many-to-many link tables
(`VirtualAssistantKnowledgeBase`, `VirtualAssistantTool`), and a fresh-id
counter standing for database id generation. -/
structure Store where
  assistants : List Assistant
  kbLinks : List (Nat × String)
  toolLinks : List (Nat × String)
  kbs : List KnowledgeBase
  modelServers : List ModelServer
  mcpServers : List MCPServer
  nextId : Nat
deriving DecidableEq

def emptyStore : Store :=
  { assistants := [], kbLinks := [], toolLinks := [], kbs := [],
    modelServers := [], mcpServers := [], nextId := 0 }

/-- Response shape of the create/read routes. -/
structure VirtualAssistantRead where
  id : Nat
  name : String
  prompt : String
  model_name : String
  knowledge_base_ids : List String
  mcp_server_ids : List String
deriving DecidableEq

/-- Shallow embedding of `create_virtual_assistant`
(`routes/virtual_assistants.py`, lines 13-56): insert the entity row, commit,
insert one link row per referenced knowledge base and tool, commit, then
re-read the link rows for the response. -/
def create_virtual_assistant (va : VirtualAssistantCreate) (st : Store) : Store × VirtualAssistantRead :=
  let db_id := st.nextId
  let st1 : Store :=
    { st with assistants := st.assistants ++ [{ id := db_id, name := va.name, prompt := va.prompt, model_name := va.model_name }],
              nextId := db_id + 1 }
  let st2 : Store :=
    { st1 with kbLinks := st1.kbLinks ++ va.knowledge_base_ids.map (fun kb_id => (db_id, kb_id)),
               toolLinks := st1.toolLinks ++ va.mcp_server_ids.map (fun tool_id => (db_id, tool_id)) }
  let kb_ids := (st2.kbLinks.filter (fun p => p.1 == db_id)).map (fun p => p.2)
  let mcp_ids := (st2.toolLinks.filter (fun p => p.1 == db_id)).map (fun p => p.2)
  (st2, { id := db_id, name := va.name, prompt := va.prompt, model_name := va.model_name,
          knowledge_base_ids := kb_ids, mcp_server_ids := mcp_ids })

/-- Python exceptions relevant to these routes.  `httpExc` is a raised
`fastapi.HTTPException` (a subclass of `Exception`, so a blanket
`except Exception` catches it too); `nameError` is a reference to an
undefined name; `attributeError` is an access to a missing attribute;
`storageError` stands for an unexpected failure of an awaited collaborator. -/
inductive PyExc where
  | httpExc (statusCode : Nat) (detail : String)
  | nameError (n : String)
  | attributeError (n : String)
  | storageError
deriving DecidableEq

/-- HTTP status the transport layer surfaces for a route outcome: the carried
status of a raised `HTTPException`, 500 for any other uncaught exception, and
200 for a plain successful return. -/
def surfacedStatus {α : Type} : Except PyExc α → Nat
  | .ok _ => 200
  | .error (.httpExc s _) => s
  | .error _ => 500

/-- Shape of `schemas.VirtualAssistantUpdate`: the fields the update route
reads (`schemas.py` is not part of `src/`). -/
structure VirtualAssistantUpdate where
  name : String
  prompt : String
  model_name : String
  knowledge_base_ids : List String
  mcp_server_ids : List String
deriving DecidableEq

/-- Shallow embedding of `update_virtual_assistant`
(`routes/virtual_assistants.py`, lines 92-114).  After the in-memory scalar
assignments (not yet committed), the route calls
`db.query(...)` on the injected `AsyncSession`; `AsyncSession` has no
`query` attribute (the legacy `Query` API is synchronous-only), so the call
raises `AttributeError` before any commit and the per-request session is
rolled back, leaving the store unchanged. -/
def update_virtual_assistant (st : Store) (va_id : Nat) (va : VirtualAssistantUpdate) :
    Store × Except PyExc VirtualAssistantRead :=
  match st.assistants.find? (fun a => a.id == va_id) with
  | none => (st, .error (.httpExc 404 "Virtual assistant not found"))
  | some _ => (st, .error (.attributeError "query"))

/-- Components response: the resolved model server plus the projected
knowledge-base and tool details.  The knowledge-base and tool projections
repeat the entity fields, so the resolved entities themselves are carried. -/
structure ComponentsResponse where
  model_server : ModelServer
  knowledge_bases : List KnowledgeBase
  tools : List MCPServer
deriving DecidableEq

/-- Shallow embedding of `get_virtual_assistant_components`
(`routes/virtual_assistants.py`, lines 126-196).  Two facts shape every error
path: the module never defines or imports `log`, so each `log.error(...)`
raises `NameError` (making the `raise HTTPException(404)` on the following
line unreachable), and the whole body sits in a `try` whose
`except Exception` would also catch an `HTTPException`; the handler itself
starts with `log.error(...)`, so a `NameError` propagates out of it and the
transport surfaces 500.  Link rows whose target entity is missing are
dropped by the `if kb:` / `if mcp:` guards. -/
def get_virtual_assistant_components (st : Store) (va_id : Nat) : Except PyExc ComponentsResponse :=
  let body : Except PyExc ComponentsResponse :=
    match st.assistants.find? (fun a => a.id == va_id) with
    | none => .error (.nameError "log")
    | some db_va =>
      match st.modelServers.find? (fun m => m.model_name == db_va.model_name) with
      | none => .error (.nameError "log")
      | some model_server =>
        let kb_details := (st.kbLinks.filter (fun p => p.1 == va_id)).filterMap
          (fun p => st.kbs.find? (fun kb => kb.vector_db_name == p.2))
        let mcp_details := (st.toolLinks.filter (fun p => p.1 == va_id)).filterMap
          (fun p => st.mcpServers.find? (fun m => m.id == p.2))
        .ok { model_server := model_server, knowledge_bases := kb_details, tools := mcp_details }
  match body with
  | .ok r => .ok r
  | .error _ => .error (.nameError "log")

/-- Outcomes of the external collaborators awaited by the reconciler.
`apiCreateKB` is the external `create_knowledge_base` route (see `kbStep`);
`resolverRaises` models `create_knowledge_bases_from_config` itself raising
before doing any work (session acquisition or the initial query failing) —
the total-failure path of the reconciler, as opposed to the per-entry degrade
path; `createVARaises` models `create_virtual_assistant` raising
(a storage failure), before any of its writes commit. -/
structure Collab where
  apiCreateKB : KnowledgeBaseCreate → Option String
  resolverRaises : YamlAgent → Bool
  createVARaises : VirtualAssistantCreate → Bool

/-- The fallback applied when knowledge-base resolution fails as a whole
(`agent_initializer.py`, lines 236-238): clear the id list and drop the
reserved token from the tool list. -/
def stripRag (va : VirtualAssistantCreate) : VirtualAssistantCreate :=
  { va with knowledge_base_ids := [],
            tools := va.tools.filter (fun tool => tool.toolgroup_id != ragId) }

/-- The dependency-resolution step of the per-descriptor loop
(`agent_initializer.py`, lines 221-244): when the converted config carries
the reserved token and a non-empty id list, run
`create_knowledge_bases_from_config`; if that call itself raises, degrade the
config with `stripRag`; in every other branch only warnings are logged. -/
def resolveStep (c : Collab) (st : Store) (yaml_agent : YamlAgent)
    (va : VirtualAssistantCreate) : Store × VirtualAssistantCreate :=
  if va.tools.any (fun tool => tool.toolgroup_id == ragId) && !va.knowledge_base_ids.isEmpty then
    if c.resolverRaises yaml_agent then (st, stripRag va)
    else ({ st with kbs := create_knowledge_bases_from_config c.apiCreateKB yaml_agent va.knowledge_base_ids st.kbs }, va)
  else (st, va)

/-- The body of the per-descriptor `try` block (`agent_initializer.py`,
lines 212-247): convert, resolve dependencies, create the assistant.  An
error carries the store at the raise point, since knowledge bases committed
before a later failure persist. -/
def processAgentTry (c : Collab) (st : Store) (yaml_agent : YamlAgent) :
    Except (PyExc × Store) (Store × VirtualAssistantCreate × Nat) :=
  let p := resolveStep c st yaml_agent (convert_yaml_agent_to_schema yaml_agent)
  if c.createVARaises p.2 then .error (.storageError, p.1)
  else .ok ((create_virtual_assistant p.2 p.1).1, p.2, p.1.nextId)

/-- Terminal state of one descriptor in a reconciliation run.  `done` carries
the creation config actually submitted and the new assistant's id. -/
inductive DescStatus where
  | done (va : VirtualAssistantCreate) (id : Nat) : DescStatus
  | skipped : DescStatus
  | failed : DescStatus
deriving DecidableEq

/-- One iteration of the reconciler loop (`agent_initializer.py`, lines
204-251): descriptors whose name is already materialized are skipped before
the `try` block; any exception inside the block is logged and absorbed,
leaving the store as it was at the raise point. -/
def processAgent (c : Collab) (existing_names : List String) (st : Store)
    (yaml_agent : YamlAgent) : Store × DescStatus :=
  if nameOf yaml_agent ∈ existing_names then (st, .skipped)
  else
    match processAgentTry c st yaml_agent with
    | .ok (st', va, id) => (st', .done va id)
    | .error (_, st') => (st', .failed)

/-- Shallow embedding of `initialize_agents_from_config`
(`agent_initializer.py`, lines 179-257), parameterized by the desired-state
list (the parsed YAML) and by the set of already-materialized names, which
the source obtains once, before the loop, from the external llamastack
client.  An empty list is a no-op. -/
def init_agents_from_config (c : Collab) (agents : List YamlAgent)
    (existing_names : List String) (st : Store) : Store × List DescStatus :=
  match agents with
  | [] => (st, [])
  | yaml_agent :: rest =>
    let p := processAgent c existing_names st yaml_agent
    let r := init_agents_from_config c rest existing_names p.1
    (r.1, p.2 :: r.2)

/-- Modelled from the spec: the existing-assistant enumerator
(`listMaterializedNames() → set of string`).  The source reads it from
`client.agents.list()` in `src/backend/api/llamastack.py`, which is not part
of `src/`; per the spec it returns the set of already-materialized assistant
names of the live system, here the names of the assistants in the store. -/
def listMaterializedNames (st : Store) : List String :=
  st.assistants.map (fun a => a.name)

lemma mcp_prefixed_ne_rag (n : String) : "mcp::" ++ n ≠ ragId := by
  intro h
  have h2 : ("mcp::" ++ n).data = ragId.data := congrArg String.data h
  simp [ragId] at h2

lemma convertTools_no_rag (l : List YamlTool) :
    ∀ t ∈ convertTools l, t.toolgroup_id ≠ ragId := by
  intro t ht
  rcases List.mem_filterMap.mp ht with ⟨tool, _, hf⟩
  rcases hn : truthyName tool.name with _ | n <;> rw [hn] at hf
  · cases hf
  · rw [Option.some_bind] at hf
    by_cases hr : n = ragId
    · rw [if_pos hr] at hf; cases hf
    · rw [if_neg hr] at hf
      cases hf
      exact mcp_prefixed_ne_rag n

lemma filterMap_of_filter {α β : Type} (p : α → Bool) (g : α → Option β)
    (h : ∀ x, p x = false → g x = none) :
    ∀ l : List α, (l.filter p).filterMap g = l.filterMap g := by
  intro l
  induction l with
  | nil => rfl
  | cons x xs ih =>
    cases hp : p x with
    | true => simp [List.filter_cons, hp, List.filterMap_cons, ih]
    | false => simp [List.filter_cons, hp, List.filterMap_cons, h x hp, ih]

lemma convertTools_drop_nameless (l : List YamlTool) :
    convertTools (l.filter (fun t => t.name.isSome)) = convertTools l := by
  apply filterMap_of_filter
  intro t ht
  rcases hn : t.name with _ | s
  · simp [truthyName, hn]
  · rw [hn] at ht; simp at ht

lemma convertKbIds_drop_nameless (l : List YamlKB) :
    convertKbIds (l.filter (fun kb => kb.name.isSome)) = convertKbIds l := by
  apply filterMap_of_filter
  intro kb hk
  rcases hn : kb.name with _ | s
  · simp [truthyName, hn]
  · rw [hn] at hk; simp at hk

/-- C3: the reserved retrieval-augmentation token appears in the converted
tool list exactly once when at least one knowledge-base entry resolved (the
converted `knowledge_base_ids` is non-empty) and never otherwise — in
particular never when the descriptor's knowledge-base list is empty, even if
the token appeared in the descriptor's source tool list, and never
duplicated. -/
theorem rag_token_iff_named_kbs (ya : YamlAgent) :
    (((convert_yaml_agent_to_schema ya).tools.filter
        (fun t => t.toolgroup_id == ragId)).length
      = if (convert_yaml_agent_to_schema ya).knowledge_base_ids.isEmpty then 0 else 1)
    ∧ (ya.knowledge_bases = [] →
        ToolAssoc.mk ragId ∉ (convert_yaml_agent_to_schema ya).tools) := by
  constructor
  · show ((convertTools ya.mcp_tools ++ _).filter _).length = _
    rw [List.filter_append, List.length_append]
    have hz : (convertTools ya.mcp_tools).filter (fun t => t.toolgroup_id == ragId) = [] := by
      rw [List.filter_eq_nil_iff]
      intro t ht
      simpa using convertTools_no_rag ya.mcp_tools t ht
    rw [hz]
    by_cases he : (convertKbIds ya.knowledge_bases).isEmpty
    · simp [convert_yaml_agent_to_schema, he]
    · simp [convert_yaml_agent_to_schema, he]
  · intro h hm
    have hids : convertKbIds ya.knowledge_bases = [] := by simp [convertKbIds, h]
    have hm' : ToolAssoc.mk ragId ∈ convertTools ya.mcp_tools := by
      simpa [convert_yaml_agent_to_schema, hids] using hm
    exact convertTools_no_rag ya.mcp_tools _ hm' rfl

/-- C3 witness: a descriptor whose source tool list contains the reserved
token but whose knowledge-base list is empty converts to a tool list without
the token, and the count identity holds for it. -/
theorem rag_token_iff_named_kbs_witness :
    ({ name := none, model := none, description := none,
       mcp_tools := [{ name := some "builtin::rag" }],
       knowledge_bases := [] } : YamlAgent).knowledge_bases = []
    ∧ ToolAssoc.mk ragId ∉ (convert_yaml_agent_to_schema
        { name := none, model := none, description := none,
          mcp_tools := [{ name := some "builtin::rag" }],
          knowledge_bases := [] }).tools :=
  ⟨rfl, (rag_token_iff_named_kbs _).2 rfl⟩

/-- C10: converting a YAML descriptor substitutes the fixed fallbacks for
absent scalar fields (`Unnamed Agent`, `llama3.1-8b-instruct`, the default
prompt) while present fields pass through, and tool or knowledge-base entries
lacking a name contribute nothing to the converted output. -/
theorem convert_applies_defaults (ya : YamlAgent) :
    (convert_yaml_agent_to_schema ya).name = ya.name.getD "Unnamed Agent"
    ∧ (convert_yaml_agent_to_schema ya).model_name = ya.model.getD "llama3.1-8b-instruct"
    ∧ (convert_yaml_agent_to_schema ya).prompt = ya.description.getD "You are a helpful assistant."
    ∧ convert_yaml_agent_to_schema
        { ya with mcp_tools := ya.mcp_tools.filter (fun t => t.name.isSome),
                  knowledge_bases := ya.knowledge_bases.filter (fun kb => kb.name.isSome) }
      = convert_yaml_agent_to_schema ya := by
  refine ⟨rfl, rfl, rfl, ?_⟩
  simp only [convert_yaml_agent_to_schema]
  rw [convertTools_drop_nameless, convertKbIds_drop_nameless]

/-- The Support scenario descriptor of the spec. -/
def supportDesc : YamlAgent :=
  { name := some "Support", model := none, description := none,
    mcp_tools := [],
    knowledge_bases := [{ name := some "kb1", description := none, files := .list ["a.pdf"] }] }

def supportVa : VirtualAssistantCreate := convert_yaml_agent_to_schema supportDesc

/-- Collaborators for the Support scenario: the external knowledge-base
creation either succeeds (persisting the entity with status `READY`, the
spec's successful-collaborator outcome) or raises; nothing else fails. -/
def supportCollab (b : Bool) : Collab :=
  { apiCreateKB := fun _ => if b then some "READY" else none,
    resolverRaises := fun _ => false,
    createVARaises := fun _ => false }

/-- C2: reconciling the Support descriptor against an empty store creates
exactly one knowledge base with `vector_db_name = "kb1"` whose status is
`READY` or `PENDING` according to the creation collaborator's outcome, and
one assistant whose submitted tool list carries the reserved RAG token and
whose persisted knowledge-base links hold exactly that knowledge base's
`vector_db_name` — the durable external key, not the entity's display
`name`. -/
theorem support_scenario_materializes_kb_and_assistant (b : Bool) :
    (init_agents_from_config (supportCollab b) [supportDesc] [] emptyStore).1.kbs
      = [{ name := "kb1", version := "1.0", embedding_model := "all-MiniLM-L6-v2",
           provider_id := "pgvector", vector_db_name := "kb1", is_external := false,
           source := "URL", source_configuration := ["a.pdf"],
           status := if b then "READY" else "PENDING" }]
    ∧ (init_agents_from_config (supportCollab b) [supportDesc] [] emptyStore).1.assistants
      = [{ id := 0, name := "Support", prompt := "You are a helpful assistant.",
           model_name := "llama3.1-8b-instruct" }]
    ∧ (init_agents_from_config (supportCollab b) [supportDesc] [] emptyStore).1.kbLinks
      = [(0, "kb1")]
    ∧ (init_agents_from_config (supportCollab b) [supportDesc] [] emptyStore).2
      = [DescStatus.done supportVa 0]
    ∧ ToolAssoc.mk ragId ∈ supportVa.tools
    ∧ supportVa.knowledge_base_ids = ["kb1"] := by
  cases b <;> exact ⟨rfl, rfl, rfl, rfl, by decide, rfl⟩

/-- A store exercising the components route: assistant 1 references a model
name with no model server, assistant 2 resolves, id 7 is absent. -/
def componentsStore : Store :=
  { assistants := [{ id := 1, name := "A", prompt := "p", model_name := "gone" },
                   { id := 2, name := "B", prompt := "p", model_name := "m1" }],
    kbLinks := [], toolLinks := [], kbs := [],
    modelServers := [{ id := 10, name := "srv", provider_name := "prov",
                       model_name := "m1", endpoint_url := "u" }],
    mcpServers := [], nextId := 3 }

/-- C4 counterexample (code bug): reading components of a missing assistant,
or of an assistant whose model server does not resolve, surfaces HTTP 500 —
not the 404 the claim states — because the handler's `log` is undefined and
its blanket `except Exception` also swallows the explicit 404; a resolving
assistant still returns 200, so the embedding is not degenerate. -/
theorem components_missing_surfaces_500 :
    surfacedStatus (get_virtual_assistant_components componentsStore 7) = 500
    ∧ surfacedStatus (get_virtual_assistant_components componentsStore 1) = 500
    ∧ surfacedStatus (get_virtual_assistant_components componentsStore 2) = 200 :=
  ⟨rfl, rfl, rfl⟩

def updateStore : Store :=
  { assistants := [{ id := 0, name := "A", prompt := "p", model_name := "m" }],
    kbLinks := [(0, "kb_old")], toolLinks := [], kbs := [],
    modelServers := [], mcpServers := [], nextId := 1 }

def updateDesc : VirtualAssistantUpdate :=
  { name := "A2", prompt := "p2", model_name := "m2",
    knowledge_base_ids := ["kb_new"], mcp_server_ids := [] }

/-- C5 counterexample (code bug): updating an existing assistant raises
`AttributeError` (the route calls the synchronous `query` API on an
`AsyncSession`) before anything commits, so the update never replaces the
links and the store is unchanged — the link set afterwards is not the
descriptor's list.  The NotFound half of the claim does hold: an absent id
yields the 404 exception with the state untouched. -/
theorem update_raises_attribute_error :
    update_virtual_assistant updateStore 0 updateDesc
      = (updateStore, .error (.attributeError "query"))
    ∧ ((update_virtual_assistant updateStore 0 updateDesc).1.kbLinks.filter
        (fun p => p.1 == 0)).map (fun p => p.2) ≠ ["kb_new"]
    ∧ update_virtual_assistant updateStore 99 updateDesc
      = (updateStore, .error (.httpExc 404 "Virtual assistant not found")) :=
  ⟨rfl, by decide, rfl⟩

/-- Collaborators that never fail. -/
def honestCollab : Collab :=
  { apiCreateKB := fun _ => some "READY",
    resolverRaises := fun _ => false,
    createVARaises := fun _ => false }

/-- Descriptor with one knowledge-base entry whose `files` field is given by
`ff`. -/
def mkNoFilesDesc (ff : FilesField) : YamlAgent :=
  { name := some "A", model := none, description := none,
    mcp_tools := [],
    knowledge_bases := [{ name := some "kb1", description := none, files := ff }] }

/-- A `files` value that fails the creation-loop validation: absent, an empty
list, or not a list at all. -/
def badFiles : FilesField → Bool
  | .missing => true
  | .list fs => fs.isEmpty
  | .nonList _ => true

/-- C7 counterexample: for the descriptor whose only knowledge-base entry has
no `files`, reconciliation creates no knowledge base and still creates the
assistant, but the assistant's persisted knowledge-base links INCLUDE the
skipped knowledge base's name — the claim's "knowledge_base_ids excludes it"
is false. -/
theorem skipped_kb_still_linked_counterexample :
    (init_agents_from_config honestCollab [mkNoFilesDesc .missing] [] emptyStore).1.kbs = []
    ∧ (init_agents_from_config honestCollab [mkNoFilesDesc .missing] [] emptyStore).1.assistants.map
        (fun a => a.name) = ["A"]
    ∧ (0, "kb1") ∈ (init_agents_from_config honestCollab [mkNoFilesDesc .missing] [] emptyStore).1.kbLinks := by
  exact ⟨rfl, rfl, by decide⟩

lemma kbStep_skips_bad {api : KnowledgeBaseCreate → Option String}
    {existing ids : List String} {kbs : List KnowledgeBase} {cfg : YamlKB}
    (hb : badFiles cfg.files = true) : kbStep api existing ids kbs cfg = kbs := by
  unfold kbStep
  split
  · rfl
  · split
    · split
      · rfl
      · rfl
      · rename_i fs hf
        rw [hf] at hb
        simp only [badFiles] at hb
        simp [hb]
    · rfl

lemma kbStep_new_mem {api : KnowledgeBaseCreate → Option String}
    {existing ids : List String} {kbs : List KnowledgeBase} {cfg : YamlKB}
    {k : KnowledgeBase} (hk : k ∈ kbStep api existing ids kbs cfg) :
    k ∈ kbs ∨ ∃ m fs s, truthyName cfg.name = some m ∧ cfg.files = .list fs
      ∧ fs.isEmpty = false ∧ k = toEntity (mkKbCreate cfg m fs) s := by
  unfold kbStep at hk
  split at hk
  · exact Or.inl hk
  · rename_i m h0
    split at hk
    · split at hk
      · exact Or.inl hk
      · exact Or.inl hk
      · rename_i fs hf
        split at hk
        · exact Or.inl hk
        · rename_i hemp
          split at hk
          · exact Or.inl hk
          · split at hk
            · rename_i s hs
              rcases List.mem_append.mp hk with h | h
              · exact Or.inl h
              · exact Or.inr ⟨m, fs, s, h0, hf, by simpa using hemp,
                  List.mem_singleton.mp h⟩
            · rcases List.mem_append.mp hk with h | h
              · exact Or.inl h
              · exact Or.inr ⟨m, fs, "PENDING", h0, hf, by simpa using hemp,
                  List.mem_singleton.mp h⟩
    · exact Or.inl hk

lemma foldl_kbStep_new_mem {api : KnowledgeBaseCreate → Option String}
    {existing ids : List String} :
    ∀ (l : List YamlKB) (kbs : List KnowledgeBase) (k : KnowledgeBase),
    k ∈ l.foldl (kbStep api existing ids) kbs →
    k ∈ kbs ∨ ∃ cfg ∈ l, ∃ m fs s, truthyName cfg.name = some m
      ∧ cfg.files = .list fs ∧ fs.isEmpty = false
      ∧ k = toEntity (mkKbCreate cfg m fs) s := by
  intro l
  induction l with
  | nil => intro kbs k hk; exact Or.inl hk
  | cons e t ih =>
    intro kbs k hk
    rw [List.foldl_cons] at hk
    rcases ih _ k hk with h | ⟨cfg, hcfg, rest⟩
    · rcases kbStep_new_mem h with h1 | ⟨m, fs, s, h2⟩
      · exact Or.inl h1
      · exact Or.inr ⟨e, List.mem_cons_self e t, m, fs, s, h2⟩
    · exact Or.inr ⟨cfg, List.mem_cons_of_mem _ hcfg, rest⟩

lemma mem_convertKbIds {l : List YamlKB} {kb : YamlKB} {n : String}
    (hm : kb ∈ l) (hn : truthyName kb.name = some n) : n ∈ convertKbIds l :=
  List.mem_filterMap.mpr ⟨kb, hm, hn⟩

lemma convert_any_rag {ya : YamlAgent}
    (hne : (convert_yaml_agent_to_schema ya).knowledge_base_ids.isEmpty = false) :
    (convert_yaml_agent_to_schema ya).tools.any (fun t => t.toolgroup_id == ragId) = true := by
  rw [List.any_eq_true]
  refine ⟨ToolAssoc.mk ragId, ?_, by simp⟩
  have hne' : (convertKbIds ya.knowledge_bases).isEmpty = false := hne
  show ToolAssoc.mk ragId ∈ convertTools ya.mcp_tools
      ++ (if (convertKbIds ya.knowledge_bases).isEmpty then [] else [ToolAssoc.mk ragId])
  rw [hne']
  simp

lemma processAgent_resolved_shape (c : Collab) (existing : List String)
    (st : Store) (ya : YamlAgent)
    (hnm : nameOf ya ∉ existing)
    (hres : c.resolverRaises ya = false)
    (hcva : c.createVARaises (convert_yaml_agent_to_schema ya) = false)
    (hne : (convert_yaml_agent_to_schema ya).knowledge_base_ids.isEmpty = false) :
    processAgent c existing st ya
      = ((create_virtual_assistant (convert_yaml_agent_to_schema ya)
            { st with
              kbs := create_knowledge_bases_from_config c.apiCreateKB ya
                       (convert_yaml_agent_to_schema ya).knowledge_base_ids st.kbs }).1,
         .done (convert_yaml_agent_to_schema ya) st.nextId) := by
  have hany := convert_any_rag hne
  simp [processAgent, processAgentTry, resolveStep, hnm, hres, hcva, hne, hany]

/-- C7 amended: for every descriptor containing a knowledge-base entry whose
`files` field is missing, empty, or not a list, and for every store,
collaborator and existing-name set under which the descriptor is processed
(not skipped, no total resolver failure, no creation failure), reconciliation
skips creating that knowledge base — its iteration of the creation loop
leaves the knowledge-base table untouched, and when every entry carrying that
name is malformed, no knowledge base with that `vector_db_name` is created at
all — without aborting the assistant: the assistant is still created, but its
knowledge-base links retain the skipped knowledge base's name as a dangling
reference. -/
theorem skipped_kb_assistant_created_link_retained :
    ∀ (c : Collab) (existing : List String) (st : Store) (ya : YamlAgent)
      (kb : YamlKB) (n : String),
    kb ∈ ya.knowledge_bases →
    truthyName kb.name = some n →
    badFiles kb.files = true →
    nameOf ya ∉ existing →
    c.resolverRaises ya = false →
    c.createVARaises (convert_yaml_agent_to_schema ya) = false →
    (∀ (existing_kbs ids : List String) (kbs : List KnowledgeBase),
       kbStep c.apiCreateKB existing_kbs ids kbs kb = kbs)
    ∧ (processAgent c existing st ya).2
        = .done (convert_yaml_agent_to_schema ya) st.nextId
    ∧ (processAgent c existing st ya).1.assistants
        = st.assistants ++ [{ id := st.nextId, name := nameOf ya,
                              prompt := (convert_yaml_agent_to_schema ya).prompt,
                              model_name := (convert_yaml_agent_to_schema ya).model_name }]
    ∧ (st.nextId, n) ∈ (processAgent c existing st ya).1.kbLinks
    ∧ ((∀ cfg ∈ ya.knowledge_bases, truthyName cfg.name = some n → badFiles cfg.files = true) →
       ∀ k ∈ (processAgent c existing st ya).1.kbs, k.vector_db_name = n → k ∈ st.kbs) := by
  intro c existing st ya kb n hmem hn hbad hnm hres hcva
  have hids : n ∈ (convert_yaml_agent_to_schema ya).knowledge_base_ids :=
    mem_convertKbIds hmem hn
  have hne : (convert_yaml_agent_to_schema ya).knowledge_base_ids.isEmpty = false := by
    cases hl : (convert_yaml_agent_to_schema ya).knowledge_base_ids with
    | nil => rw [hl] at hids; cases hids
    | cons a t => rfl
  have hshape := processAgent_resolved_shape c existing st ya hnm hres hcva hne
  refine ⟨fun e i kbs => kbStep_skips_bad hbad, ?_, ?_, ?_, ?_⟩
  · rw [hshape]
  · rw [hshape]
    rfl
  · rw [hshape]
    exact List.mem_append_right _ (List.mem_map.mpr ⟨n, hids, rfl⟩)
  · rw [hshape]
    intro hall k hk hv
    have hk' : k ∈ create_knowledge_bases_from_config c.apiCreateKB ya
        (convert_yaml_agent_to_schema ya).knowledge_base_ids st.kbs := hk
    unfold create_knowledge_bases_from_config at hk'
    rcases foldl_kbStep_new_mem ya.knowledge_bases st.kbs k hk'
      with hold | ⟨cfg, hcfg, m, fs, s, hm, hf, hgood, hkeq⟩
    · exact hold
    · exfalso
      have hvm : k.vector_db_name = m := by rw [hkeq]; rfl
      have hmn : m = n := by rw [← hvm, hv]
      have hb := hall cfg hcfg (hmn ▸ hm)
      rw [hf] at hb
      simp only [badFiles] at hb
      rw [hb] at hgood
      cases hgood

lemma kbStep_mem_mono (api : KnowledgeBaseCreate → Option String)
    (existing ids : List String) (kbs : List KnowledgeBase) (cfg : YamlKB)
    (x : KnowledgeBase) (hx : x ∈ kbs) : x ∈ kbStep api existing ids kbs cfg := by
  unfold kbStep
  repeat' split
  all_goals first
    | exact hx
    | exact List.mem_append_left _ hx

lemma foldl_kbStep_mem (api : KnowledgeBaseCreate → Option String)
    (existing ids : List String) :
    ∀ (l : List YamlKB) (kbs : List KnowledgeBase) (x : KnowledgeBase),
    x ∈ kbs → x ∈ l.foldl (kbStep api existing ids) kbs := by
  intro l
  induction l with
  | nil => intro kbs x hx; exact hx
  | cons c t ih =>
    intro kbs x hx
    rw [List.foldl_cons]
    exact ih _ x (kbStep_mem_mono api existing ids kbs c x hx)

lemma kbStep_hit (api : KnowledgeBaseCreate → Option String)
    (existing ids : List String) (kbs : List KnowledgeBase) (cfg : YamlKB)
    (n : String) (fs : List String)
    (h1 : truthyName cfg.name = some n) (h2 : n ∈ ids)
    (h3 : cfg.files = .list fs) (h4 : fs.isEmpty = false)
    (h5 : n ∉ existing) (h6 : api (mkKbCreate cfg n fs) = none) :
    toEntity (mkKbCreate cfg n fs) "PENDING" ∈ kbStep api existing ids kbs cfg := by
  simp only [kbStep, h1, h3, if_pos h2, h4, Bool.false_eq_true, if_false, if_neg h5, h6]
  simp

lemma foldl_kbStep_hit (api : KnowledgeBaseCreate → Option String)
    (existing ids : List String) (cfg : YamlKB) (n : String) (fs : List String)
    (h1 : truthyName cfg.name = some n) (h2 : n ∈ ids)
    (h3 : cfg.files = .list fs) (h4 : fs.isEmpty = false)
    (h5 : n ∉ existing) (h6 : api (mkKbCreate cfg n fs) = none) :
    ∀ (l : List YamlKB) (kbs : List KnowledgeBase), cfg ∈ l →
    toEntity (mkKbCreate cfg n fs) "PENDING" ∈ l.foldl (kbStep api existing ids) kbs := by
  intro l
  induction l with
  | nil => intro kbs h; cases h
  | cons c t ih =>
    intro kbs hc
    rw [List.foldl_cons]
    rcases List.mem_cons.mp hc with he | ht
    · subst he
      exact foldl_kbStep_mem api existing ids t _ _
        (kbStep_hit api existing ids kbs cfg n fs h1 h2 h3 h4 h5 h6)
    · exact ih _ ht

/-- C6: for every knowledge base needing creation (named, required, valid
non-empty file list, not yet present), if the external creation collaborator
raises, the resolver inserts the entity directly into the store with status
`PENDING`, the derived name, version `1.0`, the default embedding model and
provider, source kind `URL`, and the file list as source configuration —
the descriptor's processing is not aborted. -/
theorem kb_create_failure_inserts_pending :
    ∀ (api : KnowledgeBaseCreate → Option String) (ya : YamlAgent)
      (ids : List String) (kbs0 : List KnowledgeBase) (cfg : YamlKB)
      (n : String) (fs : List String),
    cfg ∈ ya.knowledge_bases →
    truthyName cfg.name = some n →
    n ∈ ids →
    cfg.files = .list fs →
    fs.isEmpty = false →
    n ∉ kbs0.map (fun kb => kb.vector_db_name) →
    api (mkKbCreate cfg n fs) = none →
    toEntity (mkKbCreate cfg n fs) "PENDING"
      ∈ create_knowledge_bases_from_config api ya ids kbs0 := by
  intro api ya ids kbs0 cfg n fs hmem h1 h2 h3 h4 h5 h6
  unfold create_knowledge_bases_from_config
  exact foldl_kbStep_hit api _ ids cfg n fs h1 h2 h3 h4 h5 h6 ya.knowledge_bases kbs0 hmem

def c6Desc : YamlKB := { name := some "kbx", description := some "docs", files := .list ["f.pdf"] }

def c6Agent : YamlAgent :=
  { name := some "A", model := none, description := none,
    mcp_tools := [], knowledge_bases := [c6Desc] }

/-- C6 witness: a concrete eligible knowledge base with an always-raising
collaborator ends up in the store with status `PENDING` and the documented
defaults. -/
theorem kb_create_failure_inserts_pending_witness :
    c6Desc ∈ c6Agent.knowledge_bases
    ∧ truthyName c6Desc.name = some "kbx"
    ∧ "kbx" ∈ ["kbx"]
    ∧ c6Desc.files = .list ["f.pdf"]
    ∧ (["f.pdf"] : List String).isEmpty = false
    ∧ "kbx" ∉ ([] : List KnowledgeBase).map (fun kb => kb.vector_db_name)
    ∧ (fun (_ : KnowledgeBaseCreate) => (none : Option String)) (mkKbCreate c6Desc "kbx" ["f.pdf"]) = none
    ∧ toEntity (mkKbCreate c6Desc "kbx" ["f.pdf"]) "PENDING"
      ∈ create_knowledge_bases_from_config (fun _ => none) c6Agent ["kbx"] [] :=
  ⟨by decide, rfl, by decide, rfl, rfl, by decide, rfl,
   kb_create_failure_inserts_pending (fun _ => none) c6Agent ["kbx"] [] c6Desc "kbx" ["f.pdf"]
     (by decide) rfl (by decide) rfl rfl (by decide) rfl⟩

/-- C8: when the converted config requests RAG with a non-empty id list and
the knowledge-base resolution call itself raises, processing the descriptor
clears its knowledge-base id list, removes the reserved token from its tool
list, and still creates the assistant, adding no knowledge bases and no
knowledge-base links. -/
theorem resolver_failure_strips_rag_and_creates :
    ∀ (c : Collab) (existing : List String) (st : Store) (ya : YamlAgent),
    c.resolverRaises ya = true →
    c.createVARaises (stripRag (convert_yaml_agent_to_schema ya)) = false →
    nameOf ya ∉ existing →
    (convert_yaml_agent_to_schema ya).tools.any (fun t => t.toolgroup_id == ragId) = true →
    (convert_yaml_agent_to_schema ya).knowledge_base_ids.isEmpty = false →
    processAgent c existing st ya
      = ((create_virtual_assistant (stripRag (convert_yaml_agent_to_schema ya)) st).1,
         .done (stripRag (convert_yaml_agent_to_schema ya)) st.nextId)
    ∧ (stripRag (convert_yaml_agent_to_schema ya)).knowledge_base_ids = []
    ∧ (stripRag (convert_yaml_agent_to_schema ya)).tools.all
        (fun t => t.toolgroup_id != ragId) = true
    ∧ (create_virtual_assistant (stripRag (convert_yaml_agent_to_schema ya)) st).1.kbs = st.kbs
    ∧ (create_virtual_assistant (stripRag (convert_yaml_agent_to_schema ya)) st).1.kbLinks = st.kbLinks := by
  intro c existing st ya h1 h2 h3 h4 h5
  refine ⟨?_, rfl, ?_, rfl, ?_⟩
  · simp [processAgent, processAgentTry, resolveStep, h1, h2, h3, h4, h5]
  · rw [List.all_eq_true]
    intro t ht
    have ht' : t ∈ (convert_yaml_agent_to_schema ya).tools.filter
        (fun tool => tool.toolgroup_id != ragId) := ht
    simpa using (List.mem_filter.mp ht').2
  · simp [create_virtual_assistant, stripRag]

def c8Collab : Collab :=
  { apiCreateKB := fun _ => some "READY",
    resolverRaises := fun _ => true,
    createVARaises := fun _ => false }

def c8Agent : YamlAgent :=
  { name := some "R", model := none, description := none,
    mcp_tools := [],
    knowledge_bases := [{ name := some "k", description := none, files := .list ["f"] }] }

/-- C8 witness: a concrete descriptor with RAG intended and a raising
resolver. -/
theorem resolver_failure_strips_rag_and_creates_witness :
    c8Collab.resolverRaises c8Agent = true
    ∧ c8Collab.createVARaises (stripRag (convert_yaml_agent_to_schema c8Agent)) = false
    ∧ nameOf c8Agent ∉ ([] : List String)
    ∧ (convert_yaml_agent_to_schema c8Agent).tools.any (fun t => t.toolgroup_id == ragId) = true
    ∧ (convert_yaml_agent_to_schema c8Agent).knowledge_base_ids.isEmpty = false
    ∧ processAgent c8Collab [] emptyStore c8Agent
      = ((create_virtual_assistant (stripRag (convert_yaml_agent_to_schema c8Agent)) emptyStore).1,
         .done (stripRag (convert_yaml_agent_to_schema c8Agent)) emptyStore.nextId)
    ∧ (stripRag (convert_yaml_agent_to_schema c8Agent)).knowledge_base_ids = []
    ∧ (stripRag (convert_yaml_agent_to_schema c8Agent)).tools.all
        (fun t => t.toolgroup_id != ragId) = true
    ∧ (create_virtual_assistant (stripRag (convert_yaml_agent_to_schema c8Agent)) emptyStore).1.kbs = emptyStore.kbs
    ∧ (create_virtual_assistant (stripRag (convert_yaml_agent_to_schema c8Agent)) emptyStore).1.kbLinks = emptyStore.kbLinks :=
  ⟨rfl, rfl, by decide, by decide, by decide,
   resolver_failure_strips_rag_and_creates c8Collab [] emptyStore c8Agent
     rfl rfl (by decide) (by decide) (by decide)⟩

/-- C9: batch isolation.  First, a reconciliation run yields exactly one
terminal status per descriptor, for every collaborator behavior including
ones that always fail.  Second, any exception raised inside a descriptor's
`try` block is absorbed into a `failed` status, keeping the store as it was
at the raise point.  Third, the run always continues with the remaining
descriptors in list order from that store. -/
theorem batch_continues_after_failures :
    (∀ (c : Collab) (agents : List YamlAgent) (existing : List String) (st : Store),
       (init_agents_from_config c agents existing st).2.length = agents.length)
    ∧ (∀ (c : Collab) (existing : List String) (st : Store) (ya : YamlAgent)
         (e : PyExc) (st1 : Store),
       nameOf ya ∉ existing →
       processAgentTry c st ya = .error (e, st1) →
       processAgent c existing st ya = (st1, .failed))
    ∧ (∀ (c : Collab) (existing : List String) (st : Store) (ya : YamlAgent)
         (rest : List YamlAgent),
       init_agents_from_config c (ya :: rest) existing st
         = ((init_agents_from_config c rest existing (processAgent c existing st ya).1).1,
            (processAgent c existing st ya).2
              :: (init_agents_from_config c rest existing (processAgent c existing st ya).1).2)) := by
  refine ⟨?_, ?_, ?_⟩
  · intro c agents existing st
    induction agents generalizing st with
    | nil => rfl
    | cons ya rest ih => simp [init_agents_from_config, ih]
  · intro c existing st ya e st1 hnm htry
    simp [processAgent, hnm, htry]
  · intro c existing st ya rest
    rfl

def c9Collab : Collab :=
  { apiCreateKB := fun _ => none,
    resolverRaises := fun _ => false,
    createVARaises := fun _ => true }

def c9Agent : YamlAgent :=
  { name := some "W", model := none, description := none,
    mcp_tools := [], knowledge_bases := [] }

/-- C9 witness: with an assistant-creation collaborator that always raises,
the descriptor's failure is absorbed into a `failed` status with the store
unchanged. -/
theorem batch_continues_after_failures_witness :
    nameOf c9Agent ∉ ([] : List String)
    ∧ processAgentTry c9Collab emptyStore c9Agent = .error (.storageError, emptyStore)
    ∧ processAgent c9Collab [] emptyStore c9Agent = (emptyStore, .failed) :=
  ⟨by decide, rfl,
   batch_continues_after_failures.2.1 c9Collab [] emptyStore c9Agent .storageError emptyStore
     (by decide) rfl⟩

lemma processAgent_skip {c : Collab} {existing : List String} {st : Store} {ya : YamlAgent}
    (h : nameOf ya ∈ existing) : processAgent c existing st ya = (st, .skipped) := by
  simp [processAgent, h]

lemma init_cons (c : Collab) (existing : List String) (st : Store)
    (ya : YamlAgent) (rest : List YamlAgent) :
    init_agents_from_config c (ya :: rest) existing st
      = ((init_agents_from_config c rest existing (processAgent c existing st ya).1).1,
         (processAgent c existing st ya).2
           :: (init_agents_from_config c rest existing (processAgent c existing st ya).1).2) := rfl

lemma resolveStep_fst_assistants (c : Collab) (st : Store) (ya : YamlAgent)
    (va : VirtualAssistantCreate) : (resolveStep c st ya va).1.assistants = st.assistants := by
  unfold resolveStep
  split
  · split <;> rfl
  · rfl

lemma resolveStep_fst_nextId (c : Collab) (st : Store) (ya : YamlAgent)
    (va : VirtualAssistantCreate) : (resolveStep c st ya va).1.nextId = st.nextId := by
  unfold resolveStep
  split
  · split <;> rfl
  · rfl

lemma resolveStep_snd_name (c : Collab) (st : Store) (ya : YamlAgent)
    (va : VirtualAssistantCreate) : (resolveStep c st ya va).2.name = va.name := by
  unfold resolveStep
  split
  · split <;> rfl
  · rfl

lemma processAgentTry_error_assistants {c : Collab} {st : Store} {ya : YamlAgent}
    {e : PyExc} {st1 : Store} (h : processAgentTry c st ya = .error (e, st1)) :
    st1.assistants = st.assistants := by
  simp only [processAgentTry] at h
  split at h
  · cases h
    exact resolveStep_fst_assistants c st ya _
  · cases h

lemma processAgentTry_ok_fields {c : Collab} {st : Store} {ya : YamlAgent}
    {st' : Store} {va : VirtualAssistantCreate} {i : Nat}
    (h : processAgentTry c st ya = .ok (st', va, i)) :
    st'.assistants = st.assistants
      ++ [{ id := st.nextId, name := nameOf ya, prompt := va.prompt, model_name := va.model_name }] := by
  simp only [processAgentTry] at h
  split at h
  · cases h
  · cases h
    show ((create_virtual_assistant _ _).1).assistants = _
    rw [show ∀ (w : VirtualAssistantCreate) (s : Store),
          (create_virtual_assistant w s).1.assistants
            = s.assistants ++ [{ id := s.nextId, name := w.name, prompt := w.prompt, model_name := w.model_name }]
        from fun _ _ => rfl]
    rw [resolveStep_fst_assistants, resolveStep_fst_nextId, resolveStep_snd_name]
    rfl

lemma processAgent_skipped_name {c : Collab} {existing : List String} {st : Store}
    {ya : YamlAgent} {st' : Store}
    (h : processAgent c existing st ya = (st', .skipped)) : nameOf ya ∈ existing := by
  by_cases hm : nameOf ya ∈ existing
  · exact hm
  · exfalso
    unfold processAgent at h
    rw [if_neg hm] at h
    rcases htry : processAgentTry c st ya with ⟨e, st1⟩ | ⟨stA, vaA, iA⟩ <;> rw [htry] at h
    · cases h
    · cases h

lemma processAgent_done_name {c : Collab} {existing : List String} {st : Store}
    {ya : YamlAgent} {st' : Store} {va : VirtualAssistantCreate} {i : Nat}
    (h : processAgent c existing st ya = (st', .done va i)) :
    nameOf ya ∈ listMaterializedNames st' := by
  unfold processAgent at h
  by_cases hm : nameOf ya ∈ existing
  · rw [if_pos hm] at h; cases h
  · rw [if_neg hm] at h
    rcases htry : processAgentTry c st ya with ⟨e, st1⟩ | ⟨stA, vaA, iA⟩ <;> rw [htry] at h
    · cases h
    · cases h
      have hf := processAgentTry_ok_fields htry
      unfold listMaterializedNames
      rw [hf, List.map_append]
      exact List.mem_append_right _ (by simp)

lemma processAgent_assistants_extend (c : Collab) (existing : List String)
    (st : Store) (ya : YamlAgent) :
    ∃ l, (processAgent c existing st ya).1.assistants = st.assistants ++ l := by
  unfold processAgent
  by_cases hm : nameOf ya ∈ existing
  · rw [if_pos hm]
    exact ⟨[], (List.append_nil _).symm⟩
  · rw [if_neg hm]
    rcases htry : processAgentTry c st ya with ⟨e, st1⟩ | ⟨stA, vaA, iA⟩
    · exact ⟨[], by rw [List.append_nil]; exact processAgentTry_error_assistants htry⟩
    · exact ⟨_, processAgentTry_ok_fields htry⟩

lemma init_assistants_extend (c : Collab) (existing : List String) :
    ∀ (agents : List YamlAgent) (st : Store),
    ∃ l, (init_agents_from_config c agents existing st).1.assistants = st.assistants ++ l := by
  intro agents
  induction agents with
  | nil => intro st; exact ⟨[], (List.append_nil _).symm⟩
  | cons ya rest ih =>
    intro st
    obtain ⟨l1, h1⟩ := processAgent_assistants_extend c existing st ya
    obtain ⟨l2, h2⟩ := ih (processAgent c existing st ya).1
    refine ⟨l1 ++ l2, ?_⟩
    rw [init_cons, h2, h1, List.append_assoc]

lemma init_names_extend {c : Collab} {existing : List String}
    {agents : List YamlAgent} {st : Store} {n : String}
    (h : n ∈ listMaterializedNames st) :
    n ∈ listMaterializedNames (init_agents_from_config c agents existing st).1 := by
  obtain ⟨l, hl⟩ := init_assistants_extend c existing agents st
  unfold listMaterializedNames at h ⊢
  rw [hl, List.map_append]
  exact List.mem_append_left _ h

lemma names_materialized (c : Collab) (existing : List String) :
    ∀ (agents : List YamlAgent) (st : Store),
    DescStatus.failed ∉ (init_agents_from_config c agents existing st).2 →
    ∀ ya ∈ agents,
    nameOf ya ∈ existing
      ∨ nameOf ya ∈ listMaterializedNames (init_agents_from_config c agents existing st).1 := by
  intro agents
  induction agents with
  | nil => intro st h ya hya; cases hya
  | cons a rest ih =>
    intro st h ya hya
    rw [init_cons] at h
    simp only [List.mem_cons, not_or] at h
    obtain ⟨h1, h2⟩ := h
    rcases List.mem_cons.mp hya with rfl | hrest
    · rcases hp : processAgent c existing st ya with ⟨st', s⟩
      cases s with
      | skipped => exact Or.inl (processAgent_skipped_name hp)
      | failed =>
        exfalso
        apply h1
        rw [hp]
      | done va i =>
        right
        rw [init_cons]
        have hn : nameOf ya ∈ listMaterializedNames (processAgent c existing st ya).1 := by
          rw [hp]
          exact processAgent_done_name hp
        exact init_names_extend hn
    · have := ih (processAgent c existing st a).1 h2 ya hrest
      rw [init_cons]
      exact this

lemma init_all_skip (c : Collab) (existing : List String) :
    ∀ (agents : List YamlAgent) (st : Store),
    (∀ ya ∈ agents, nameOf ya ∈ existing) →
    init_agents_from_config c agents existing st
      = (st, agents.map (fun _ => DescStatus.skipped)) := by
  intro agents
  induction agents with
  | nil => intro st _; rfl
  | cons a rest ih =>
    intro st h
    rw [init_cons, processAgent_skip (h a (List.mem_cons_self a rest))]
    rw [ih st (fun ya hy => h ya (List.mem_cons_of_mem a hy))]
    rfl

/-- C1: a descriptor whose name is already in the set returned by the
existing-assistant enumerator is transitioned to `skipped` with zero writes
(the store is returned untouched); consequently a second run over the same
list, enumerating names from the store the first run produced, skips every
descriptor and creates no additional assistants or knowledge bases, provided
no descriptor of the first run failed. -/
theorem reconciler_skips_existing_and_second_run_noop :
    (∀ (c : Collab) (existing : List String) (st : Store) (ya : YamlAgent),
       nameOf ya ∈ existing → processAgent c existing st ya = (st, .skipped))
    ∧ (∀ (c : Collab) (agents : List YamlAgent) (st : Store),
       DescStatus.failed ∉ (init_agents_from_config c agents (listMaterializedNames st) st).2 →
       init_agents_from_config c agents
           (listMaterializedNames (init_agents_from_config c agents (listMaterializedNames st) st).1)
           (init_agents_from_config c agents (listMaterializedNames st) st).1
         = ((init_agents_from_config c agents (listMaterializedNames st) st).1,
            agents.map (fun _ => DescStatus.skipped))) := by
  constructor
  · intro c existing st ya h
    exact processAgent_skip h
  · intro c agents st h
    apply init_all_skip
    intro ya hya
    rcases names_materialized c (listMaterializedNames st) agents st h ya hya with hin | hin
    · exact init_names_extend hin
    · exact hin

def c1Collab : Collab :=
  { apiCreateKB := fun _ => some "READY",
    resolverRaises := fun _ => false,
    createVARaises := fun _ => false }

def c1Agent : YamlAgent :=
  { name := some "First", model := none, description := none,
    mcp_tools := [], knowledge_bases := [] }

/-- C1 witness: one descriptor, an empty starting store, no failures — the
second run returns the first run's store unchanged with a `skipped` status. -/
theorem reconciler_skips_existing_and_second_run_noop_witness :
    DescStatus.failed
      ∉ (init_agents_from_config c1Collab [c1Agent] (listMaterializedNames emptyStore) emptyStore).2
    ∧ init_agents_from_config c1Collab [c1Agent]
        (listMaterializedNames
          (init_agents_from_config c1Collab [c1Agent] (listMaterializedNames emptyStore) emptyStore).1)
        (init_agents_from_config c1Collab [c1Agent] (listMaterializedNames emptyStore) emptyStore).1
      = ((init_agents_from_config c1Collab [c1Agent] (listMaterializedNames emptyStore) emptyStore).1,
         [c1Agent].map (fun _ => DescStatus.skipped)) :=
  ⟨by decide,
   reconciler_skips_existing_and_second_run_noop.2 c1Collab [c1Agent] emptyStore (by decide)⟩

def c7Collab : Collab :=
  { apiCreateKB := fun _ => none,
    resolverRaises := fun _ => false,
    createVARaises := fun _ => false }

def c7BadKb : YamlKB := { name := some "kb1", description := none, files := .missing }

/-- A two-entry descriptor: `kb1` has no `files`, `kb2` is well formed. -/
def c7Agent : YamlAgent :=
  { name := some "A", model := none, description := none,
    mcp_tools := [],
    knowledge_bases := [c7BadKb, { name := some "kb2", description := none, files := .list ["g.pdf"] }] }

/-- C7 amended witness: a two-entry descriptor whose first knowledge base has
no `files`, against an empty store, with every hypothesis discharged
concretely. -/
theorem skipped_kb_assistant_created_link_retained_witness :
    c7BadKb ∈ c7Agent.knowledge_bases
    ∧ truthyName c7BadKb.name = some "kb1"
    ∧ badFiles c7BadKb.files = true
    ∧ nameOf c7Agent ∉ ([] : List String)
    ∧ c7Collab.resolverRaises c7Agent = false
    ∧ c7Collab.createVARaises (convert_yaml_agent_to_schema c7Agent) = false
    ∧ ((∀ (existing_kbs ids : List String) (kbs : List KnowledgeBase),
         kbStep c7Collab.apiCreateKB existing_kbs ids kbs c7BadKb = kbs)
       ∧ (processAgent c7Collab [] emptyStore c7Agent).2
           = .done (convert_yaml_agent_to_schema c7Agent) emptyStore.nextId
       ∧ (processAgent c7Collab [] emptyStore c7Agent).1.assistants
           = emptyStore.assistants
             ++ [{ id := emptyStore.nextId, name := nameOf c7Agent,
                   prompt := (convert_yaml_agent_to_schema c7Agent).prompt,
                   model_name := (convert_yaml_agent_to_schema c7Agent).model_name }]
       ∧ (emptyStore.nextId, "kb1") ∈ (processAgent c7Collab [] emptyStore c7Agent).1.kbLinks
       ∧ ((∀ cfg ∈ c7Agent.knowledge_bases, truthyName cfg.name = some "kb1" →
             badFiles cfg.files = true) →
          ∀ k ∈ (processAgent c7Collab [] emptyStore c7Agent).1.kbs,
          k.vector_db_name = "kb1" → k ∈ emptyStore.kbs)) :=
  ⟨by decide, rfl, rfl, by decide, rfl, rfl,
   skipped_kb_assistant_created_link_retained c7Collab [] emptyStore c7Agent c7BadKb "kb1"
     (by decide) rfl rfl (by decide) rfl rfl⟩
